import Mathlib

/-!
Verification of the webpage-video-recorder core against its specification.

The definitions below are a shallow embedding of the JavaScript source:

* `lib/cleanup.js` — CleanupManager (process registry, cleanupAll, killProcess,
  execTracked);
* `lib/display.js` — findAvailableDisplay, startDisplay / stopDisplay and the
  DISPLAY environment mutation;
* `lib/browser.js` (src/unnamed/part_000, second document) — playVideo;
* `record.js` (src/unnamed/part_004) — recordUrl job lifecycle, duration
  resolution, batch dispatch in runBatch;
* `lib/batch.js` is not present under src/; the scheduler pieces that depend
  on it are modelled from the spec and marked as such.

JavaScript numbers that matter here (the media duration) are modelled by an
inductive type distinguishing NaN, the infinities and finite rationals, so
that the truthiness / positivity / finiteness tests of the source translate
exactly.  Stateful code is modelled by explicit state passing; fallible code
returns `Except` or `Option`.
-/

/-! ### JavaScript numbers and duration resolution (record.js lines 200-207 and 267-285) -/

/-- A JavaScript number as far as the duration logic observes it:
NaN, the two infinities, or a finite rational value. -/
inductive JSNum where
  | nan
  | posInf
  | negInf
  | fin (q : ℚ)
deriving DecidableEq, Repr

/-- JavaScript truthiness of a number: NaN and 0 are falsy, everything else
(including the infinities) is truthy. -/
def JSNum.truthy : JSNum → Bool
  | .nan => false
  | .posInf => true
  | .negInf => true
  | .fin q => q != 0

/-- The comparison `x > 0` of JavaScript: false on NaN, true on +Infinity. -/
def JSNum.gtZero : JSNum → Bool
  | .nan => false
  | .posInf => true
  | .negInf => false
  | .fin q => 0 < q

/-- The `isFinite(x)` test of JavaScript. -/
def JSNum.finite : JSNum → Bool
  | .nan => false
  | .posInf => false
  | .negInf => false
  | .fin _ => true

/-- Finite value of a `JSNum` (0 on the non-finite cases, which the callers
guard against). -/
def JSNum.val : JSNum → ℚ
  | .fin q => q
  | _ => 0

/-- Truthiness of the optional manual `--duration` argument: `undefined` and
`0` are falsy, every other number is truthy.  This is the test both in the
validation `if (!duration && !autoDetectDuration)` and in the fallback branch
`else if (duration)` of record.js. -/
def manualTruthy : Option ℚ → Bool
  | none => false
  | some q => q != 0

/-- Duration resolution of record.js (src/unnamed/part_004): the early
validation at lines 200-207 followed by the auto-detect block at lines
267-282.  Mirrors the source: with auto-detect on, a truthy, positive and
finite detected duration resolves to its ceiling; otherwise a truthy manual
duration is used; otherwise the job fails.  With auto-detect off the manual
duration is used (the validation has already required it to be truthy). -/
def resolveDuration (autoDetect : Bool) (detected : JSNum) (manual : Option ℚ) :
    Except String ℚ :=
  if !(manualTruthy manual) && !autoDetect then
    .error "Either --duration must be provided or --auto-detect-duration must be enabled"
  else if autoDetect then
    if detected.truthy && detected.gtZero && detected.finite then
      .ok ((Rat.ceil detected.val : ℤ) : ℚ)
    else if manualTruthy manual then
      .ok (manual.getD 0)
    else
      .error "Failed to auto-detect video duration"
  else
    .ok (manual.getD 0)

/-- Boolean success test on `Except`. -/
def exceptOk {ε α : Type} : Except ε α → Bool
  | .ok _ => true
  | .error _ => false

deriving instance DecidableEq for Except

/-! ### Display allocation (lib/display.js) -/

/-- The probe loop of findAvailableDisplay (lib/display.js lines 35-47):
probe startDisplay, startDisplay+1, ... for maxAttempts numbers and return
the first one whose out-of-band `xdpyinfo` probe reports it free; `none`
models the thrown error after exhausting the attempts.  `inUse` is the state
of the external display server at probe time. -/
def findAvailableDisplay (inUse : Nat → Bool) (startDisplay : Nat) (maxAttempts : Nat) :
    Option Nat :=
  match maxAttempts with
  | 0 => none
  | n + 1 =>
    if inUse startDisplay then findAvailableDisplay inUse (startDisplay + 1) n
    else some startDisplay

/-- Display-number selection of startDisplay (lib/display.js lines 56-74):
the preferred number itself is probed first; if it is in use and autoRetry is
set, the search continues from the next number with the default budget of 10
attempts; without autoRetry a busy preferred number is an error. -/
def selectDisplayNumber (inUse : Nat → Bool) (preferred : Nat) (autoRetry : Bool) :
    Option Nat :=
  if inUse preferred then
    if autoRetry then findAvailableDisplay inUse (preferred + 1) 10 else none
  else some preferred

/-- Interleaved display allocation by two concurrently active jobs, both
starting from the same preferred number (the shared `--display` default of
record.js).  There is no reservation table in the source: each job only runs
the `xdpyinfo` probe.  If `overlapped` is true, job B probes before job A has
bound its display server to the chosen number (the cooperative interleaving
at the awaited probe); otherwise B probes after A's server is up and sees A's
number as in use. -/
def twoJobDisplayAlloc (preferred : Nat) (overlapped : Bool) :
    Option Nat × Option Nat :=
  let free : Nat → Bool := fun _ => false
  let aNum := selectDisplayNumber free preferred true
  let afterA : Nat → Bool := fun n => decide (aNum = some n)
  let bNum := selectDisplayNumber (if overlapped then free else afterA) preferred true
  (aNum, bNum)

/-- Modelled from the spec: lib/batch.js is not under src/, so the per-job
sink naming of the batch scheduler is taken from §4.2 — allocateSink derives
a collision-free sink name by suffixing the base name with the job id when
running under concurrent batch mode, and uses the base name alone otherwise.
The suffixed name is represented structurally as base-plus-jobId. -/
inductive SinkName where
  | plain (base : String)
  | suffixed (base : String) (jobId : Nat)
deriving DecidableEq, Repr

/-- Modelled from the spec: the sink-name derivation of allocateSink
(spec §4.2), keyed on the concurrent-batch flag. -/
def allocateSink (baseName : String) (jobId : Nat) (parallel : Bool) : SinkName :=
  if parallel then .suffixed baseName jobId else .plain baseName

/-! ### DISPLAY environment mutation (lib/display.js lines 128-145 and 152-195) -/

/-- The process-wide environment as the display module observes it. -/
structure ProcEnv where
  display : String
deriving DecidableEq, Repr

/-- Environment effect of a successful startDisplay (lib/display.js line
136): the ready-poll callback assigns `process.env.DISPLAY` to the newly
bound display number, overwriting whatever was there. -/
def startDisplayEnvEffect (displayNumber : Nat) (_e : ProcEnv) : ProcEnv :=
  { display := ":" ++ toString displayNumber }

/-- Environment effect of stopDisplay (lib/display.js lines 152-195): the
function signals and waits for the Xvfb process but performs no write to
`process.env`, so the previous DISPLAY value is never restored. -/
def stopDisplayEnvEffect (e : ProcEnv) : ProcEnv :=
  e

/-! ### CleanupManager.cleanupAll (src/unnamed/part_000, lib/cleanup.js lines 99-127)

cleanupAll first checks and sets `this.isCleaningUp` synchronously — there is
no `await` between the guard test and the assignment, so under the
single-threaded cooperative scheduling of Node the guard-and-set pair is one
atomic step.  The body that follows (running the custom handlers, killing the
tracked processes in parallel, clearing the registry) suspends at its awaits,
so overlapping invocations interleave at those points.  An invocation is
therefore modelled as two events: `enter i` (the atomic guard-and-set) and
`run i` (the awaited body, executed only by the invocation that won the
guard).  Schedules are arbitrary event lists subject to wellformedness
hypotheses stated at the theorems. -/

/-- One atomic step of an overlapping cleanupAll invocation. -/
inductive FlushEv where
  | enter (i : Nat)
  | run (i : Nat)
deriving DecidableEq, Repr

/-- State of the CleanupManager singleton during a cleanup, together with
instrumentation counting what the cleanup pass actually performed. -/
structure FlushState where
  handlers : Nat
  procs : List String
  isCleaningUp : Bool
  owner : Option Nat
  handlerRuns : Nat
  killed : List String
  passes : Nat
deriving DecidableEq, Repr

/-- The body of cleanupAll once past the guard: run every registered handler,
terminate every tracked process, clear the registry. -/
def flushBody (s : FlushState) : FlushState :=
  { s with
    handlerRuns := s.handlerRuns + s.handlers
    killed := s.killed ++ s.procs
    procs := []
    passes := s.passes + 1 }

/-- One event of the interleaved semantics: `enter i` is the atomic
`if (this.isCleaningUp) return; this.isCleaningUp = true;` of invocation i,
`run i` is the awaited remainder, which only the guard-winning invocation
performs (the others have already returned). -/
def flushStep (s : FlushState) : FlushEv → FlushState
  | .enter i => if s.isCleaningUp then s else { s with isCleaningUp := true, owner := some i }
  | .run i => if s.owner = some i then flushBody s else s

/-- Run a schedule of interleaved cleanupAll events. -/
def flushRun (s : FlushState) (sched : List FlushEv) : FlushState :=
  sched.foldl flushStep s

/-- Initial CleanupManager state with h registered handlers and the given
tracked processes; no cleanup has run. -/
def flushInit (h : Nat) (ps : List String) : FlushState :=
  { handlers := h, procs := ps, isCleaningUp := false, owner := none,
    handlerRuns := 0, killed := [], passes := 0 }

/-- Wellformedness of an interleaved schedule, checked with accumulators of
the invocations that already entered and already ran: an invocation enters
at most once, and its body event appears at most once and only after its
entry (an invocation cannot run its body before being called). -/
def flushWFAux (entered ran : List Nat) : List FlushEv → Bool
  | [] => true
  | .enter i :: rest => decide (i ∉ entered) && flushWFAux (i :: entered) ran rest
  | .run i :: rest => decide (i ∈ entered) && decide (i ∉ ran) && flushWFAux entered (i :: ran) rest

/-- A schedule is wellformed when it is so from empty accumulators. -/
def flushSchedWF (sched : List FlushEv) : Bool :=
  flushWFAux [] [] sched

/-- A schedule is complete when every invocation that entered also reaches
its body event (no invocation is abandoned mid-flight). -/
def flushSchedComplete (sched : List FlushEv) : Bool :=
  sched.all fun e =>
    match e with
    | .enter i => decide (FlushEv.run i ∈ sched)
    | .run _ => true

/-! ### CleanupManager.killProcess (src/unnamed/part_000, lib/cleanup.js lines 59-94) -/

/-- A tracked OS process as killProcess observes it.  `killedFlag` is the
Node `subprocess.killed` property: Node sets it to true as soon as a call to
`subprocess.kill()` successfully sends a signal, regardless of whether the
process terminates.  `ignoresSigterm` says whether the underlying process
keeps running through the whole grace period after receiving SIGTERM. -/
structure TrackedProc where
  ignoresSigterm : Bool
  alive : Bool
  killedFlag : Bool
  sent : List String
deriving DecidableEq, Repr

/-- Node `subprocess.kill(signal)` on a live process: the signal is sent and
`.killed` becomes true.  SIGKILL terminates the process unconditionally;
SIGTERM terminates it only if it does not ignore the signal. -/
def nodeKill (p : TrackedProc) (signal : String) : TrackedProc :=
  { p with
    killedFlag := true
    sent := p.sent ++ [signal]
    alive := if signal = "SIGKILL" then false
             else if signal = "SIGTERM" && !p.ignoresSigterm then false
             else p.alive }

/-- killProcess of lib/cleanup.js on a valid live process: send SIGTERM,
then either the exit listener fires within the 5-second grace period
(process exited; resolve), or the timeout callback runs, which escalates to
SIGKILL only under `if (process.killed === false)` and then resolves
unconditionally.  Returns the final process state and whether the promise
resolved. -/
def killProcess (p : TrackedProc) : TrackedProc × Bool :=
  let p1 := nodeKill p "SIGTERM"
  if !p1.alive then
    (p1, true)
  else
    let p2 := if p1.killedFlag = false then nodeKill p1 "SIGKILL" else p1
    (p2, true)

/-! ### Process registry tracking (src/unnamed/part_000, lib/cleanup.js lines 27-45 and 147-165) -/

/-- Registry-facing events.  `spawnTrackDirect` is the pattern of record.js:
a module spawns the process and the orchestrator calls
`cleanupManager.trackProcess(name, handle)` directly — no exit listener
untracks it.  `spawnExecTracked` is `execTracked`, which tracks the process
and installs an exit listener calling untrackProcess.  `exits` is the
natural exit of a live process, and `untrack` an explicit untrackProcess
call. -/
inductive RegEv where
  | spawnTrackDirect (name : String)
  | spawnExecTracked (name : String)
  | exits (name : String)
  | untrack (name : String)
deriving DecidableEq, Repr

/-- Registry state: the tracked-process map (names), the set of processes
currently live, and the names with an auto-untrack exit listener installed
by execTracked. -/
structure RegState where
  registry : List String
  live : List String
  autoUntrack : List String
deriving DecidableEq, Repr

/-- One registry event.  trackProcess is `Map.set`; untrackProcess is
`Map.delete`; the exit listener installed by execTracked untracks on exit,
while a directly tracked process keeps its registry entry when it dies. -/
def regStep (s : RegState) : RegEv → RegState
  | .spawnTrackDirect n =>
    { s with registry := s.registry.insert n, live := s.live.insert n }
  | .spawnExecTracked n =>
    { s with registry := s.registry.insert n, live := s.live.insert n,
             autoUntrack := s.autoUntrack.insert n }
  | .exits n =>
    { s with live := s.live.erase n,
             registry := if n ∈ s.autoUntrack then s.registry.erase n else s.registry }
  | .untrack n =>
    { s with registry := s.registry.erase n }

/-- Run a sequence of registry events from the empty registry. -/
def regRun (evs : List RegEv) : RegState :=
  evs.foldl regStep { registry := [], live := [], autoUntrack := [] }

/-- Whether an event belongs to the execTracked discipline: a spawn through
execTracked or a natural exit (no direct trackProcess, no explicit
untrackProcess). -/
def RegEv.isExecStyle : RegEv → Bool
  | .spawnExecTracked _ => true
  | .exits _ => true
  | _ => false

/-! ### playVideo (src/unnamed/part_000, lib/browser.js lines 420-500) -/

/-- Outcome of one playback attempt, as the source distinguishes them:
the attempt body throws (the catch branch), the in-page play() reports
failure, play() succeeds but the verification finds the element not playing
(paused, ended, or readyState at most 2), or the verification confirms
playing. -/
inductive AttemptOutcome where
  | thrown
  | playRejected
  | notPlaying
  | playing
deriving DecidableEq, Repr

/-- Observable actions of playVideo: the optional click on the media
element, the programmatic play() call, the fixed verification wait, and the
1-second backoff before the next attempt. -/
inductive PlayAct where
  | clickAttempt (attempt : Nat)
  | playCall (attempt : Nat)
  | verifyWait (attempt : Nat)
  | backoff (attempt : Nat)
deriving DecidableEq, Repr

/-- Whether an action is the click opening an attempt (used to count
attempts when clickToPlay is enabled). -/
def PlayAct.isClick : PlayAct → Bool
  | .clickAttempt _ => true
  | _ => false

/-- The actions one attempt performs before its outcome is known: the click
(when clickToPlay is enabled), then play(); the verification wait happens
only when play() reported success.  A thrown attempt stops at the point of
the exception. -/
def playAttemptActs (clickToPlay : Bool) (a : Nat) : AttemptOutcome → List PlayAct
  | .thrown => if clickToPlay then [.clickAttempt a] else []
  | .playRejected => (if clickToPlay then [.clickAttempt a] else []) ++ [.playCall a]
  | .notPlaying => (if clickToPlay then [.clickAttempt a] else []) ++ [.playCall a, .verifyWait a]
  | .playing => (if clickToPlay then [.clickAttempt a] else []) ++ [.playCall a, .verifyWait a]

/-- The attempt loop of playVideo over the remaining attempt numbers.
Mirrors the source: a verified playing attempt returns; a thrown attempt on
the last try throws `Failed to play video after N attempts`; any other
failed attempt sleeps 1 second when a try remains; falling off the loop
throws `Could not start video playback after N attempts`. -/
def playVideoLoop (oc : Nat → AttemptOutcome) (clickToPlay : Bool) :
    List Nat → Except String Nat × List PlayAct
  | [] => (.error "Could not start video playback", [])
  | a :: rest =>
    let acts := playAttemptActs clickToPlay a (oc a)
    match oc a with
    | .playing => (.ok a, acts)
    | .thrown =>
      if rest.isEmpty then (.error "Failed to play video", acts)
      else
        let r := playVideoLoop oc clickToPlay rest
        (r.1, acts ++ [.backoff a] ++ r.2)
    | _ =>
      if rest.isEmpty then (.error "Could not start video playback", acts)
      else
        let r := playVideoLoop oc clickToPlay rest
        (r.1, acts ++ [.backoff a] ++ r.2)

/-- playVideo with the defaults of the source (clickToPlay, waitForPlay,
maxAttempts = 3), as recordUrl invokes it: attempts 1, 2, 3.  Returns the
successful attempt number or the playback error, with the action trace. -/
def playVideo (oc : Nat → AttemptOutcome) : Except String Nat × List PlayAct :=
  playVideoLoop oc true [1, 2, 3]

/-! ### The recordUrl job lifecycle (src/unnamed/part_004 lines 172-368) -/

/-- Lifecycle stages at which recordUrl can raise. -/
inductive Stage where
  | validation
  | display
  | audio
  | browser
  | page
  | video
  | duration
  | capture
  | play
deriving DecidableEq, Repr

/-- Observable events of one job execution, in particular the acquisition
milestones and the four teardown steps. -/
inductive JobEv where
  | displayStarted
  | audioReady
  | browserLaunched
  | pageLoaded
  | videoFound
  | captureStarted
  | settleDelay
  | playInvoked
  | waitFinished
  | stopCaptureStep
  | closeBrowserStep
  | stopDisplayStep
  | cleanupAudioStep
deriving DecidableEq, Repr

/-- Environment describing which awaited stage calls succeed in one
execution of recordUrl, plus the duration-resolution inputs. -/
structure JobEnv where
  displayOk : Bool
  audioOk : Bool
  browserOk : Bool
  pageOk : Bool
  videoOk : Bool
  autoDetect : Bool
  detected : JSNum
  manual : Option ℚ
  captureOk : Bool
  playOk : Bool
deriving DecidableEq, Repr

/-- Which teardown steps raise internally.  Each such error is logged and
swallowed by the source (the `.catch` wrappers of the emergency path and the
internal try/catch of the library teardown functions). -/
structure TeardownEnv where
  captureStopFails : Bool
  browserCloseFails : Bool
  displayStopFails : Bool
  audioCleanupFails : Bool
deriving DecidableEq, Repr

/-- Result of one recordUrl execution: the resolved success flag and failed
stage, the event trace, and the list of teardown steps that raised (all
swallowed). -/
structure JobResult where
  success : Bool
  failedStage : Option Stage
  trace : List JobEv
  teardownErrors : List Stage
deriving DecidableEq, Repr

/-- The emergency cleanup of recordUrl (src/unnamed/part_004 lines 348-364):
one guarded call per acquired resource, in the order ffmpeg, browser,
display, audio, each wrapped so its own error is swallowed.  Returns the
attempted steps and the swallowed errors. -/
def emergencyTeardown (ff br di au : Bool) (td : TeardownEnv) :
    List JobEv × List Stage :=
  ((if ff then [.stopCaptureStep] else []) ++
   (if br then [.closeBrowserStep] else []) ++
   (if di then [.stopDisplayStep] else []) ++
   (if au then [.cleanupAudioStep] else []),
   (if ff && td.captureStopFails then [Stage.capture] else []) ++
   (if br && td.browserCloseFails then [Stage.browser] else []) ++
   (if di && td.displayStopFails then [Stage.display] else []) ++
   (if au && td.audioCleanupFails then [Stage.audio] else []))

/-- The recordUrl job lifecycle of src/unnamed/part_004: the early duration
validation (lines 200-207), then the strictly sequential stage chain with
its try/catch.  A stage failure short-circuits to the emergency teardown for
exactly the resources assigned so far and resolves as a failure carrying the
stage that raised; the all-success path runs the graceful teardown in the
fixed order capture, browser, display, audio. -/
def recordUrlModel (env : JobEnv) (td : TeardownEnv) : JobResult :=
  if !(manualTruthy env.manual) && !env.autoDetect then
    { success := false, failedStage := some .validation, trace := [], teardownErrors := [] }
  else if !env.displayOk then
    let r := emergencyTeardown false false false false td
    { success := false, failedStage := some .display, trace := r.1, teardownErrors := r.2 }
  else if !env.audioOk then
    let r := emergencyTeardown false false true false td
    { success := false, failedStage := some .audio,
      trace := [.displayStarted] ++ r.1, teardownErrors := r.2 }
  else if !env.browserOk then
    let r := emergencyTeardown false false true true td
    { success := false, failedStage := some .browser,
      trace := [.displayStarted, .audioReady] ++ r.1, teardownErrors := r.2 }
  else if !env.pageOk then
    let r := emergencyTeardown false true true true td
    { success := false, failedStage := some .page,
      trace := [.displayStarted, .audioReady, .browserLaunched] ++ r.1, teardownErrors := r.2 }
  else if !env.videoOk then
    let r := emergencyTeardown false true true true td
    { success := false, failedStage := some .video,
      trace := [.displayStarted, .audioReady, .browserLaunched, .pageLoaded] ++ r.1,
      teardownErrors := r.2 }
  else if !(exceptOk (resolveDuration env.autoDetect env.detected env.manual)) then
    let r := emergencyTeardown false true true true td
    { success := false, failedStage := some .duration,
      trace := [.displayStarted, .audioReady, .browserLaunched, .pageLoaded, .videoFound] ++ r.1,
      teardownErrors := r.2 }
  else if !env.captureOk then
    let r := emergencyTeardown false true true true td
    { success := false, failedStage := some .capture,
      trace := [.displayStarted, .audioReady, .browserLaunched, .pageLoaded, .videoFound] ++ r.1,
      teardownErrors := r.2 }
  else if !env.playOk then
    let r := emergencyTeardown true true true true td
    { success := false, failedStage := some .play,
      trace := [.displayStarted, .audioReady, .browserLaunched, .pageLoaded, .videoFound,
                .captureStarted, .settleDelay, .playInvoked] ++ r.1,
      teardownErrors := r.2 }
  else
    let r := emergencyTeardown true true true true td
    { success := true, failedStage := none,
      trace := [.displayStarted, .audioReady, .browserLaunched, .pageLoaded, .videoFound,
                .captureStarted, .settleDelay, .playInvoked, .waitFinished] ++ r.1,
      teardownErrors := r.2 }

/-- The first stage of recordUrl that raises under the given environment,
independent of the teardown behaviour. -/
def firstFailure (env : JobEnv) : Option Stage :=
  if !(manualTruthy env.manual) && !env.autoDetect then some .validation
  else if !env.displayOk then some .display
  else if !env.audioOk then some .audio
  else if !env.browserOk then some .browser
  else if !env.pageOk then some .page
  else if !env.videoOk then some .video
  else if !(exceptOk (resolveDuration env.autoDetect env.detected env.manual)) then some .duration
  else if !env.captureOk then some .capture
  else if !env.playOk then some .play
  else none

/-- Whether the early duration validation of recordUrl passes. -/
def validationPasses (env : JobEnv) : Bool :=
  manualTruthy env.manual || env.autoDetect

/-- Whether the execution acquires the display (startDisplay succeeded). -/
def displayAcquired (env : JobEnv) : Bool :=
  validationPasses env && env.displayOk

/-- Whether the execution acquires the audio sink. -/
def audioAcquired (env : JobEnv) : Bool :=
  displayAcquired env && env.audioOk

/-- Whether the execution acquires the browser. -/
def browserAcquired (env : JobEnv) : Bool :=
  audioAcquired env && env.browserOk

/-- Whether the execution acquires the capture process (startRecording
succeeded, which requires every earlier stage including duration resolution
to have succeeded). -/
def captureAcquired (env : JobEnv) : Bool :=
  browserAcquired env && env.pageOk && env.videoOk &&
    exceptOk (resolveDuration env.autoDetect env.detected env.manual) && env.captureOk

/-- Whether the first occurrence of an event satisfying p strictly precedes
every event satisfying q, with some q-event present. -/
def firstBefore (p q : JobEv → Bool) : List JobEv → Bool
  | [] => false
  | e :: tr => if q e then false else if p e then tr.any q else firstBefore p q tr

/-! ### Batch dispatch (src/unnamed/part_004 lines 453-507) -/

/-- One job outcome as the scheduler consumes it: the job promise resolved
with a success flag, or it rejected with an error message. -/
structure BatchResult where
  url : String
  success : Bool
  error : Option String
deriving DecidableEq, Repr

/-- Modelled from the spec: lib/batch.js (runSequential / runParallel) is not
under src/, so the worker pool is taken from §4.5 — every URL in the list is
run as one job; a rejection from a job is captured as a failed BatchResult
for that URL and the remaining jobs proceed.  `exec i u` is the outcome of
the job for index i and URL u (recordUrl itself resolves, but the scheduler
also captures rejections). -/
def batchResultOf (exec : Nat → String → Except String Bool) (i : Nat) (u : String) :
    BatchResult :=
  match exec i u with
  | .ok s => { url := u, success := s, error := none }
  | .error e => { url := u, success := false, error := some e }

/-- The job loop from index i onward: one result per remaining URL, in
order. -/
def runPoolFrom (exec : Nat → String → Except String Bool) :
    Nat → List String → List BatchResult
  | _, [] => []
  | i, u :: rest => batchResultOf exec i u :: runPoolFrom exec (i + 1) rest

/-- The whole batch run over the URL list. -/
def runPool (urls : List String) (exec : Nat → String → Except String Bool) :
    List BatchResult :=
  runPoolFrom exec 0 urls

/-- The exit decision of runBatch (src/unnamed/part_004 lines 502-506): the
run exits with failure status exactly when the failure filter is nonempty. -/
def batchExitCode (results : List BatchResult) : Nat :=
  if 0 < (results.filter (fun r => !r.success)).length then 1 else 0

theorem resolveDuration_ceil_example :
    resolveDuration true (.fin ⟨627, 5, by decide, by decide⟩) none = .ok 126 := by decide

/-- C4 (amended): with auto-detect enabled and a truthy, positive, finite
detected duration the effective duration is its ceiling; if the detected
duration is not finite positive, a truthy (nonzero) manual fallback is used;
with no truthy fallback the resolution fails; with auto-detect disabled a
truthy manual duration is used and its absence fails the validation.  The
amendment against the claim: `provided` must be read as truthy — a provided
fallback of 0 is treated as absent. -/
theorem C4_duration_policy (d : JSNum) (m : Option ℚ) :
    ((d.truthy && d.gtZero && d.finite) = true →
        resolveDuration true d m = .ok ((Rat.ceil d.val : ℤ) : ℚ))
  ∧ ((d.truthy && d.gtZero && d.finite) = false → manualTruthy m = true →
        resolveDuration true d m = .ok (m.getD 0))
  ∧ ((d.truthy && d.gtZero && d.finite) = false → manualTruthy m = false →
        exceptOk (resolveDuration true d m) = false)
  ∧ (manualTruthy m = true → resolveDuration false d m = .ok (m.getD 0))
  ∧ (manualTruthy m = false → exceptOk (resolveDuration false d m) = false) := by
  refine ⟨?_, ?_, ?_, ?_, ?_⟩
  · intro h; simp [resolveDuration, h]
  · intro h1 h2; simp [resolveDuration, h1, h2]
  · intro h1 h2; simp [resolveDuration, h1, h2, exceptOk]
  · intro h; simp [resolveDuration, h]
  · intro h; simp [resolveDuration, h, exceptOk]

/-- C4 witness: auto-detect on, detected duration NaN, fallback 30 resolves
to 30, by the fallback clause of C4_duration_policy. -/
theorem C4_duration_policy_witness :
    resolveDuration true JSNum.nan (some 30) = .ok ((some (30 : ℚ)).getD 0) :=
  (C4_duration_policy JSNum.nan (some 30)).2.1 (by decide) (by decide)

/-- C4 counterexample: with auto-detect on, detected duration NaN and the
manual fallback 0 provided, the code fails with the duration-unresolvable
error instead of resolving to the provided fallback, because the fallback
test is JavaScript truthiness and 0 is falsy. -/
theorem C4_zero_fallback_counterexample :
    resolveDuration true JSNum.nan (some 0) ≠ Except.ok (0 : ℚ) ∧
    exceptOk (resolveDuration true JSNum.nan (some 0)) = false := by decide

/-- C10: a successful startDisplay overwrites the process-wide DISPLAY
variable with the new display number, so of two concurrent jobs the later
allocation wins, and stopDisplay is the identity on the environment — the
previous value is never restored. -/
theorem C10_display_env_mutation (e : ProcEnv) (d1 d2 : Nat) :
    (startDisplayEnvEffect d2 (startDisplayEnvEffect d1 e)).display = ":" ++ toString d2
  ∧ (∀ e2 : ProcEnv, stopDisplayEnvEffect e2 = e2)
  ∧ (stopDisplayEnvEffect (startDisplayEnvEffect 100 (startDisplayEnvEffect 99 ⟨":0"⟩))).display = ":100"
  ∧ (stopDisplayEnvEffect (startDisplayEnvEffect 100 (startDisplayEnvEffect 99 ⟨":0"⟩))).display ≠ ":99" := by
  refine ⟨rfl, fun e2 => rfl, by decide, by decide⟩

/-- C8: on a tracked process that ignores SIGTERM and outlives the grace
period, killProcess resolves with the process still alive and never sends
SIGKILL — the escalation guard `if (process.killed === false)` can never
fire because Node sets `.killed` as soon as the SIGTERM send succeeds.  This
contradicts the claimed escalate-then-resolve contract. -/
theorem C8_killProcess_no_escalation :
    (killProcess { ignoresSigterm := true, alive := true, killedFlag := false, sent := [] }).2 = true
  ∧ (killProcess { ignoresSigterm := true, alive := true, killedFlag := false, sent := [] }).1.alive = true
  ∧ (killProcess { ignoresSigterm := true, alive := true, killedFlag := false, sent := [] }).1.sent = ["SIGTERM"]
  ∧ "SIGKILL" ∉ (killProcess { ignoresSigterm := true, alive := true, killedFlag := false, sent := [] }).1.sent := by
  decide

/-- C9 counterexample: a process registered with trackProcess directly (the
xvfb pattern of record.js) keeps its registry entry after it exits
naturally, so the registry holds one entry while no tracked process is
live. -/
theorem C9_direct_track_counterexample :
    (regRun [.spawnTrackDirect "xvfb", .exits "xvfb"]).registry = ["xvfb"]
  ∧ (regRun [.spawnTrackDirect "xvfb", .exits "xvfb"]).live = []
  ∧ (regRun [.spawnTrackDirect "xvfb", .exits "xvfb"]).registry.length ≠
      (regRun [.spawnTrackDirect "xvfb", .exits "xvfb"]).live.length := by decide

/-- C1 counterexample: two concurrently active jobs whose availability
probes interleave before either binds its display server both receive
display 99 — the probe-then-bind sequence has no reservation step, so the
claimed uniqueness fails for overlapped allocations. -/
theorem C1_display_collision :
    twoJobDisplayAlloc 99 true = (some 99, some 99) := by decide

/-- The probe loop returns the first free number in its window: the result
is reported free, lies in the probe window, and every earlier number in the
window was reported in use. -/
theorem findAvailableDisplay_spec (inUse : Nat → Bool) :
    ∀ (maxAttempts startD d : Nat),
      findAvailableDisplay inUse startD maxAttempts = some d →
      inUse d = false ∧ startD ≤ d ∧ d < startD + maxAttempts ∧
      ∀ k, startD ≤ k → k < d → inUse k = true := by
  intro m
  induction m with
  | zero => intro s d h; simp [findAvailableDisplay] at h
  | succ n ih =>
    intro s d h
    rw [findAvailableDisplay] at h
    by_cases hs : inUse s
    · simp only [hs, if_true] at h
      obtain ⟨h1, h2, h3, h4⟩ := ih (s + 1) d h
      refine ⟨h1, by omega, by omega, ?_⟩
      intro k hk1 hk2
      rcases Nat.lt_or_ge k (s + 1) with hk | hk
      · have hks : k = s := by omega
        rw [hks]; exact hs
      · exact h4 k hk hk2
    · simp only [Bool.not_eq_true] at hs
      simp only [hs, if_neg, Bool.false_eq_true, not_false_iff, Option.some.injEq] at h
      subst h
      exact ⟨hs, Nat.le_refl _, by omega, fun k hk1 hk2 => by omega⟩

/-- C1 (amended): each job obtains the first number its probe reports free
within the probe window, and sibling sink names are pairwise distinct; a
probe never returns a number that is already bound, so allocations that do
not interleave (the second probe runs after the first display server is up)
yield distinct numbers — concretely, the non-overlapped two-job run yields
preferred and preferred+1.  The unqualified uniqueness of the original claim
fails for overlapped probes (see the collision counterexample). -/
theorem C1_allocation :
    (∀ (inUse : Nat → Bool) (maxAttempts startD d : Nat),
       findAvailableDisplay inUse startD maxAttempts = some d →
       inUse d = false ∧ startD ≤ d ∧ d < startD + maxAttempts ∧
       ∀ k, startD ≤ k → k < d → inUse k = true)
  ∧ (∀ (base : String) (i j : Nat), i ≠ j →
       allocateSink base i true ≠ allocateSink base j true)
  ∧ (∀ (inUse : Nat → Bool) (maxAttempts startD a : Nat), inUse a = true →
       findAvailableDisplay inUse startD maxAttempts ≠ some a)
  ∧ (∀ preferred : Nat,
       twoJobDisplayAlloc preferred false = (some preferred, some (preferred + 1))) := by
  refine ⟨fun inUse m s d h => findAvailableDisplay_spec inUse m s d h, ?_, ?_, ?_⟩
  · intro base i j hij h
    simp only [allocateSink, if_true, SinkName.suffixed.injEq] at h
    exact hij h.2
  · intro inUse m s a ha h
    have hfree := (findAvailableDisplay_spec inUse m s a h).1
    rw [ha] at hfree
    exact Bool.true_eq_false.mp hfree
  · intro pref
    simp [twoJobDisplayAlloc, selectDisplayNumber, findAvailableDisplay]

/-- C1 witness: the batch sink names of jobs 0 and 1 differ, and a probe
cannot return number 100 when the external server reports every number up
to 100 as in use. -/
theorem C1_allocation_witness :
    allocateSink "recording_sink" 0 true ≠ allocateSink "recording_sink" 1 true ∧
    findAvailableDisplay (fun n => decide (n ≤ 100)) 99 10 ≠ some 100 :=
  ⟨C1_allocation.2.1 "recording_sink" 0 1 (by decide),
   C1_allocation.2.2.1 (fun n => decide (n ≤ 100)) 10 99 100 (by decide)⟩

/-- A successful playVideo run returns one of the attempted numbers. -/
theorem playVideoLoop_ok_mem (oc : Nat → AttemptOutcome) (c : Bool) :
    ∀ (l : List Nat) (n : Nat), (playVideoLoop oc c l).1 = .ok n → n ∈ l := by
  intro l
  induction l with
  | nil => intro n h; simp [playVideoLoop] at h
  | cons a rest ih =>
    intro n h
    cases hoc : oc a <;> cases hrest : rest.isEmpty <;>
      simp [playVideoLoop, hoc, hrest] at h <;>
      first
        | exact List.mem_cons_of_mem a (ih n h)
        | (subst h; exact List.mem_cons_self _ _)

/-- If no attempted try verifies as playing, the loop ends in the playback
error. -/
theorem playVideoLoop_all_fail (oc : Nat → AttemptOutcome) (c : Bool) :
    ∀ l : List Nat, (∀ a ∈ l, oc a ≠ .playing) →
      exceptOk (playVideoLoop oc c l).1 = false := by
  intro l
  induction l with
  | nil => intro _; simp [playVideoLoop, exceptOk]
  | cons a rest ih =>
    intro hall
    have hrec : ∀ b ∈ rest, oc b ≠ .playing :=
      fun b hb => hall b (List.mem_cons_of_mem a hb)
    have hne := hall a (List.mem_cons_self a rest)
    cases hoc : oc a <;> cases hrest : rest.isEmpty <;>
      simp [playVideoLoop, hoc, hrest, exceptOk] <;>
      first
        | exact ih hrec
        | exact absurd hoc hne

/-- C5: playVideo makes at most 3 attempts; when attempts 1 and 2 fail and
attempt 3 verifies as playing it returns successfully after exactly 3
attempts (3 click-open actions observed); when no attempt verifies as
playing it raises the playback error. -/
theorem C5_playVideo_retry (oc : Nat → AttemptOutcome) :
    (∀ n, (playVideo oc).1 = .ok n → n ≤ 3)
  ∧ (oc 1 ≠ .playing → oc 2 ≠ .playing → oc 3 = .playing →
      (playVideo oc).1 = .ok 3 ∧ (playVideo oc).2.countP PlayAct.isClick = 3)
  ∧ ((∀ a ∈ [1, 2, 3], oc a ≠ .playing) → exceptOk (playVideo oc).1 = false) := by
  refine ⟨?_, ?_, ?_⟩
  · intro n h
    have hmem := playVideoLoop_ok_mem oc true [1, 2, 3] n h
    have : n = 1 ∨ n = 2 ∨ n = 3 := by simpa using hmem
    omega
  · intro h1 h2 h3
    cases hoc1 : oc 1 <;> cases hoc2 : oc 2 <;>
      simp_all [playVideo, playVideoLoop, playAttemptActs, PlayAct.isClick,
        List.countP_cons]
  · exact playVideoLoop_all_fail oc true [1, 2, 3]

/-- C5 witness: attempts 1 and 2 rejected, attempt 3 playing — the run
succeeds at attempt 3 with exactly 3 attempts observed. -/
theorem C5_playVideo_retry_witness :
    (playVideo (fun a => if a ≤ 2 then AttemptOutcome.playRejected else .playing)).1 = .ok 3 ∧
    (playVideo (fun a => if a ≤ 2 then AttemptOutcome.playRejected else .playing)).2.countP
      PlayAct.isClick = 3 :=
  (C5_playVideo_retry _).2.1 (by decide) (by decide) (by decide)

/-- The loop produces one result per URL. -/
theorem runPoolFrom_length (exec : Nat → String → Except String Bool) :
    ∀ (l : List String) (i : Nat), (runPoolFrom exec i l).length = l.length := by
  intro l
  induction l with
  | nil => intro i; rfl
  | cons u rest ih => intro i; simp [runPoolFrom, ih (i + 1)]

/-- The k-th result of the loop from index i is the result of job i+k on the
k-th URL. -/
theorem runPoolFrom_get (exec : Nat → String → Except String Bool) :
    ∀ (l : List String) (i k : Nat),
      (runPoolFrom exec i l)[k]? = (l[k]?).map (fun u => batchResultOf exec (i + k) u) := by
  intro l
  induction l with
  | nil => intro i k; simp [runPoolFrom]
  | cons u rest ih =>
    intro i k
    cases k with
    | zero => simp [runPoolFrom]
    | succ k =>
      have := ih (i + 1) k
      simp only [runPoolFrom, List.getElem?_cons_succ, this]
      have harith : i + 1 + k = i + (k + 1) := by omega
      rw [harith]

/-- The exit decision of runBatch: failure status exactly when some result
is unsuccessful. -/
theorem batchExitCode_eq_one_iff (rs : List BatchResult) :
    batchExitCode rs = 1 ↔ ∃ r ∈ rs, r.success = false := by
  unfold batchExitCode
  by_cases h : 0 < (rs.filter fun r => !r.success).length
  · simp only [h, if_true, true_iff]
    rcases List.exists_mem_of_length_pos h with ⟨r, hr⟩
    have hm := List.mem_filter.mp hr
    exact ⟨r, hm.1, by simpa using hm.2⟩
  · simp only [h, if_false]
    constructor
    · intro h01; exact absurd h01 (by decide)
    · rintro ⟨r, hr, hs⟩
      exact absurd (List.length_pos_of_mem (List.mem_filter.mpr ⟨hr, by simp [hs]⟩)) h

/-- C6: every URL of a batch yields exactly one result in order; a job whose
execution raises is converted into an unsuccessful result carrying the
error; the result of a job depends only on that job, not on any sibling
outcome; and the run exits with failure status iff at least one result is
unsuccessful. -/
theorem C6_batch_results (urls : List String) (exec : Nat → String → Except String Bool) :
    (runPool urls exec).length = urls.length
  ∧ (∀ i u, urls[i]? = some u →
      (runPool urls exec)[i]? = some (batchResultOf exec i u))
  ∧ (∀ i u e, urls[i]? = some u → exec i u = .error e →
      (runPool urls exec)[i]? = some { url := u, success := false, error := some e })
  ∧ (∀ (exec2 : Nat → String → Except String Bool) (j : Nat), exec j = exec2 j →
      (runPool urls exec)[j]? = (runPool urls exec2)[j]?)
  ∧ (batchExitCode (runPool urls exec) = 1 ↔ ∃ r ∈ runPool urls exec, r.success = false) := by
  refine ⟨runPoolFrom_length exec urls 0, ?_, ?_, ?_, batchExitCode_eq_one_iff _⟩
  · intro i u hu
    rw [runPool, runPoolFrom_get exec urls 0 i, hu]
    simp
  · intro i u e hu he
    rw [runPool, runPoolFrom_get exec urls 0 i, hu]
    simp [batchResultOf, he]
  · intro exec2 j hj
    rw [runPool, runPool, runPoolFrom_get exec urls 0 j, runPoolFrom_get exec2 urls 0 j]
    cases hu : urls[j]? with
    | none => simp
    | some u => simp [batchResultOf, hj]

/-- C6 witness: a 2-URL batch where job 0 rejects and job 1 succeeds — the
rejection is captured as an unsuccessful result for URL a and the run exits
with failure status. -/
theorem C6_batch_results_witness :
    (runPool ["a", "b"] (fun i _ => if i = 0 then .error "boom" else .ok true))[0]? =
      some { url := "a", success := false, error := some "boom" } ∧
    batchExitCode (runPool ["a", "b"] (fun i _ => if i = 0 then .error "boom" else .ok true)) = 1 :=
  ⟨(C6_batch_results ["a", "b"] _).2.2.1 0 "a" "boom" (by decide) (by decide),
   (C6_batch_results ["a", "b"] _).2.2.2.2.mpr
     ⟨{ url := "a", success := false, error := some "boom" }, by decide, by decide⟩⟩

/-- Invariant of execTracked-only traces: if the registry equals the live
set and every live process has the auto-untrack listener, both facts are
preserved by every execTracked-style event. -/
theorem regRun_exec_only_aux :
    ∀ (evs : List RegEv) (s : RegState),
      (∀ ev ∈ evs, ev.isExecStyle = true) →
      s.registry = s.live → (∀ n ∈ s.live, n ∈ s.autoUntrack) →
      (evs.foldl regStep s).registry = (evs.foldl regStep s).live := by
  intro evs
  induction evs with
  | nil => intro s _ h1 _; exact h1
  | cons ev rest ih =>
    intro s hall h1 h2
    have hev := hall ev (List.mem_cons_self _ _)
    have hrest : ∀ e ∈ rest, e.isExecStyle = true :=
      fun e he => hall e (List.mem_cons_of_mem _ he)
    cases ev with
    | spawnTrackDirect n => simp [RegEv.isExecStyle] at hev
    | untrack n => simp [RegEv.isExecStyle] at hev
    | spawnExecTracked n =>
      refine ih _ hrest ?_ ?_
      · simp [regStep, h1]
      · intro m hm
        simp only [regStep] at hm ⊢
        rcases List.mem_insert_iff.mp hm with h | h
        · exact List.mem_insert_iff.mpr (Or.inl h)
        · exact List.mem_insert_iff.mpr (Or.inr (h2 m h))
    | exits n =>
      refine ih _ hrest ?_ ?_
      · by_cases hn : n ∈ s.autoUntrack
        · simp [regStep, hn, h1]
        · have hnl : n ∉ s.live := fun hl => hn (h2 n hl)
          simp [regStep, hn, List.erase_of_not_mem hnl, h1]
      · intro m hm
        simp only [regStep] at hm ⊢
        exact h2 m (List.mem_of_mem_erase hm)

/-- C9 (amended): a process spawned and registered through execTracked loses
its registry entry on natural exit with no explicit untrack call, and along
any trace consisting only of execTracked spawns and natural exits the
registry is exactly the set of live tracked processes.  The amendment
against the claim: this holds for registrations through execTracked, whose
exit listener performs the removal — a process registered by a direct
trackProcess call keeps its stale entry after exiting (see the
counterexample). -/
theorem C9_registry_tracking :
    (∀ (s : RegState) (n : String), n ∉ s.registry →
       (regStep (regStep s (.spawnExecTracked n)) (.exits n)).registry = s.registry)
  ∧ (∀ evs : List RegEv, (∀ ev ∈ evs, ev.isExecStyle = true) →
       (regRun evs).registry = (regRun evs).live) := by
  constructor
  · intro s n hn
    simp [regStep, List.insert_of_not_mem hn, List.mem_insert_self]
  · intro evs hall
    exact regRun_exec_only_aux evs { registry := [], live := [], autoUntrack := [] }
      hall rfl (fun n hn => absurd hn (List.not_mem_nil n))

/-- C9 witness: an execTracked ffmpeg process that exits naturally leaves
registry and live set equal (both empty). -/
theorem C9_registry_tracking_witness :
    (regRun [.spawnExecTracked "ffmpeg", .exits "ffmpeg"]).registry =
      (regRun [.spawnExecTracked "ffmpeg", .exits "ffmpeg"]).live :=
  C9_registry_tracking.2 [.spawnExecTracked "ffmpeg", .exits "ffmpeg"] (by decide)

/-- Unfolding step for flushRun. -/
theorem flushRun_cons (s : FlushState) (e : FlushEv) (l : List FlushEv) :
    flushRun s (e :: l) = flushRun (flushStep s e) l := rfl

/-- In a wellformed suffix, no invocation recorded as already run has
another body event. -/
theorem flushWFAux_ran_not_mem :
    ∀ (l : List FlushEv) (entered ran : List Nat),
      flushWFAux entered ran l = true →
      ∀ j ∈ ran, FlushEv.run j ∉ l := by
  intro l
  induction l with
  | nil => intro entered ran _ j _ h; exact List.not_mem_nil _ h
  | cons e rest ih =>
    intro entered ran hwf j hj hmem
    cases e with
    | enter i =>
      simp only [flushWFAux, Bool.and_eq_true, decide_eq_true_eq] at hwf
      rcases List.mem_cons.mp hmem with h | h
      · exact FlushEv.noConfusion h
      · exact ih (i :: entered) ran hwf.2 j hj h
    | run i =>
      simp only [flushWFAux, Bool.and_eq_true, decide_eq_true_eq] at hwf
      obtain ⟨⟨_, hiran⟩, hrest⟩ := hwf
      rcases List.mem_cons.mp hmem with h | h
      · injection h with h
        subst h
        exact hiran hj
      · exact ih entered (i :: ran) hrest j (List.mem_cons_of_mem _ hj) h

/-- In a wellformed suffix every invocation runs its body at most once. -/
theorem flushWFAux_count_le_one :
    ∀ (l : List FlushEv) (entered ran : List Nat) (j : Nat),
      flushWFAux entered ran l = true →
      l.count (FlushEv.run j) ≤ 1 := by
  intro l
  induction l with
  | nil => intro _ _ _ _; simp
  | cons e rest ih =>
    intro entered ran j hwf
    cases e with
    | enter i =>
      simp only [flushWFAux, Bool.and_eq_true, decide_eq_true_eq] at hwf
      have hrec := ih (i :: entered) ran j hwf.2
      simpa [List.count_cons] using hrec
    | run i =>
      simp only [flushWFAux, Bool.and_eq_true, decide_eq_true_eq] at hwf
      obtain ⟨⟨_, hiran⟩, hrest⟩ := hwf
      by_cases hji : j = i
      · subst hji
        have hnot : FlushEv.run j ∉ rest :=
          flushWFAux_ran_not_mem rest entered (j :: ran) hrest j (List.mem_cons_self _ _)
        simp [List.count_cons, List.count_eq_zero.mpr hnot]
      · have hrec := ih entered (i :: ran) j hrest
        simpa [List.count_cons, hji] using hrec

/-- Once the guard flag is set and an owner recorded, every further enter is
a no-op, every foreign run is a no-op, and the whole remaining schedule
amounts to the owner body running exactly when its run event occurs. -/
theorem flushRun_owner_locked :
    ∀ (l : List FlushEv) (s : FlushState) (j : Nat),
      s.isCleaningUp = true → s.owner = some j →
      l.count (FlushEv.run j) ≤ 1 →
      flushRun s l = if FlushEv.run j ∈ l then flushBody s else s := by
  intro l
  induction l with
  | nil => intro s j _ _ _; simp [flushRun]
  | cons e rest ih =>
    intro s j hclean howner hcount
    cases e with
    | enter i =>
      have hstep : flushStep s (.enter i) = s := by simp [flushStep, hclean]
      have hcount2 : rest.count (FlushEv.run j) ≤ 1 := by
        simpa [List.count_cons] using hcount
      rw [flushRun_cons, hstep, ih s j hclean howner hcount2]
      simp [List.mem_cons]
    | run i =>
      by_cases hij : i = j
      · subst hij
        have hstep : flushStep s (.run i) = flushBody s := by simp [flushStep, howner]
        have hcr : rest.count (FlushEv.run i) = 0 := by
          have := hcount
          simp [List.count_cons] at this
          omega
        have hnot : FlushEv.run i ∉ rest := List.count_eq_zero.mp hcr
        rw [flushRun_cons, hstep,
          ih (flushBody s) i (by simp [flushBody, hclean]) (by simp [flushBody, howner])
            (by simp [hcr])]
        simp [hnot, List.mem_cons]
      · have hji : ¬j = i := fun hh => hij hh.symm
        have hstep : flushStep s (.run i) = s := by
          rw [flushStep, if_neg]
          rw [howner]
          simp only [Option.some.injEq]
          exact fun hh => hij hh.symm
        have hcount2 : rest.count (FlushEv.run j) ≤ 1 := by
          have h2 := hcount
          simp [List.count_cons] at h2
          simpa [hij] using h2
        rw [flushRun_cons, hstep, ih s j hclean howner hcount2]
        simp [List.mem_cons, hji]

/-- C2: on every wellformed, complete, nonempty interleaved schedule of
cleanupAll invocations — including two overlapping signal deliveries — the
cleanup pass runs exactly once: every registered handler runs once, every
tracked process is terminated once, the registry is cleared, and every other
invocation performs none of these steps. -/
theorem C2_cleanupAll_idempotent (h : Nat) (ps : List String) (sched : List FlushEv)
    (hwf : flushSchedWF sched = true)
    (hcomplete : flushSchedComplete sched = true)
    (hne : sched ≠ []) :
    (flushRun (flushInit h ps) sched).passes = 1 ∧
    (flushRun (flushInit h ps) sched).handlerRuns = h ∧
    (flushRun (flushInit h ps) sched).killed = ps ∧
    (flushRun (flushInit h ps) sched).procs = [] := by
  cases sched with
  | nil => exact absurd rfl hne
  | cons e rest =>
    cases e with
    | run i => simp [flushSchedWF, flushWFAux] at hwf
    | enter j =>
      have hwf2 : flushWFAux [j] [] rest = true := by
        simpa [flushSchedWF, flushWFAux] using hwf
      have hcount : rest.count (FlushEv.run j) ≤ 1 :=
        flushWFAux_count_le_one rest [j] [] j hwf2
      have hmem : FlushEv.run j ∈ rest := by
        simp only [flushSchedComplete, List.all_cons, Bool.and_eq_true] at hcomplete
        have hj := hcomplete.1
        simp only [decide_eq_true_eq, List.mem_cons] at hj
        rcases hj with hj | hj
        · exact FlushEv.noConfusion hj
        · exact hj
      have hstep : flushStep (flushInit h ps) (.enter j) =
          { flushInit h ps with isCleaningUp := true, owner := some j } := by
        simp [flushStep, flushInit]
      rw [flushRun_cons, hstep,
        flushRun_owner_locked rest _ j rfl rfl hcount]
      simp [hmem, flushBody, flushInit]

/-- C2 witness: two overlapping invocations (two signals), interleaved as
enter 0, enter 1, run 1, run 0 — the pass runs once: both handlers run once,
both tracked processes are killed, the registry is cleared. -/
theorem C2_cleanupAll_idempotent_witness :
    (flushRun (flushInit 2 ["xvfb", "ffmpeg"]) [.enter 0, .enter 1, .run 1, .run 0]).passes = 1 ∧
    (flushRun (flushInit 2 ["xvfb", "ffmpeg"]) [.enter 0, .enter 1, .run 1, .run 0]).handlerRuns = 2 ∧
    (flushRun (flushInit 2 ["xvfb", "ffmpeg"]) [.enter 0, .enter 1, .run 1, .run 0]).killed =
      ["xvfb", "ffmpeg"] ∧
    (flushRun (flushInit 2 ["xvfb", "ffmpeg"]) [.enter 0, .enter 1, .run 1, .run 0]).procs = [] :=
  C2_cleanupAll_idempotent 2 ["xvfb", "ffmpeg"] [.enter 0, .enter 1, .run 1, .run 0]
    (by decide) (by decide) (by decide)

/-- C3: whenever a recordUrl execution fails, the emergency teardown invokes
a release step exactly once per resource acquired before the failure and
never for a resource not acquired; the resolved failure always carries the
first stage that raised, independent of any error raised (and swallowed)
inside teardown steps; and a failure at the browser-launch stage releases
the display and the audio sink exactly once each with no capture-stop or
browser-close step. -/
theorem C3_emergency_teardown (env : JobEnv) (td : TeardownEnv) :
    ((recordUrlModel env td).success = false →
       (recordUrlModel env td).trace.count JobEv.stopCaptureStep =
         (if captureAcquired env then 1 else 0) ∧
       (recordUrlModel env td).trace.count JobEv.closeBrowserStep =
         (if browserAcquired env then 1 else 0) ∧
       (recordUrlModel env td).trace.count JobEv.stopDisplayStep =
         (if displayAcquired env then 1 else 0) ∧
       (recordUrlModel env td).trace.count JobEv.cleanupAudioStep =
         (if audioAcquired env then 1 else 0))
  ∧ (recordUrlModel env td).failedStage = firstFailure env
  ∧ (recordUrlModel env td).success = decide (firstFailure env = none)
  ∧ ((recordUrlModel
        { displayOk := true, audioOk := true, browserOk := false, pageOk := true,
          videoOk := true, autoDetect := true, detected := .nan, manual := none,
          captureOk := true, playOk := true } td).trace.count JobEv.stopDisplayStep = 1
     ∧ (recordUrlModel
        { displayOk := true, audioOk := true, browserOk := false, pageOk := true,
          videoOk := true, autoDetect := true, detected := .nan, manual := none,
          captureOk := true, playOk := true } td).trace.count JobEv.cleanupAudioStep = 1
     ∧ (recordUrlModel
        { displayOk := true, audioOk := true, browserOk := false, pageOk := true,
          videoOk := true, autoDetect := true, detected := .nan, manual := none,
          captureOk := true, playOk := true } td).trace.count JobEv.stopCaptureStep = 0
     ∧ (recordUrlModel
        { displayOk := true, audioOk := true, browserOk := false, pageOk := true,
          videoOk := true, autoDetect := true, detected := .nan, manual := none,
          captureOk := true, playOk := true } td).trace.count JobEv.closeBrowserStep = 0
     ∧ (recordUrlModel
        { displayOk := true, audioOk := true, browserOk := false, pageOk := true,
          videoOk := true, autoDetect := true, detected := .nan, manual := none,
          captureOk := true, playOk := true } td).failedStage = some .browser) := by
  have hinstance :
      ∀ t : TeardownEnv,
        (recordUrlModel
          { displayOk := true, audioOk := true, browserOk := false, pageOk := true,
            videoOk := true, autoDetect := true, detected := .nan, manual := none,
            captureOk := true, playOk := true } t).trace.count JobEv.stopDisplayStep = 1
      ∧ (recordUrlModel
          { displayOk := true, audioOk := true, browserOk := false, pageOk := true,
            videoOk := true, autoDetect := true, detected := .nan, manual := none,
            captureOk := true, playOk := true } t).trace.count JobEv.cleanupAudioStep = 1
      ∧ (recordUrlModel
          { displayOk := true, audioOk := true, browserOk := false, pageOk := true,
            videoOk := true, autoDetect := true, detected := .nan, manual := none,
            captureOk := true, playOk := true } t).trace.count JobEv.stopCaptureStep = 0
      ∧ (recordUrlModel
          { displayOk := true, audioOk := true, browserOk := false, pageOk := true,
            videoOk := true, autoDetect := true, detected := .nan, manual := none,
            captureOk := true, playOk := true } t).trace.count JobEv.closeBrowserStep = 0
      ∧ (recordUrlModel
          { displayOk := true, audioOk := true, browserOk := false, pageOk := true,
            videoOk := true, autoDetect := true, detected := .nan, manual := none,
            captureOk := true, playOk := true } t).failedStage = some .browser := by
    intro t
    obtain ⟨t1, t2, t3, t4⟩ := t
    cases t1 <;> cases t2 <;> cases t3 <;> cases t4 <;> decide
  refine ⟨?_, ?_, ?_, hinstance td⟩
  all_goals {
    obtain ⟨dOk, aOk, bOk, pOk, vOk, aD, det, man, cOk, plOk⟩ := env
    by_cases hvp : (manualTruthy man || aD) = true
    case neg =>
      simp only [Bool.not_eq_true, Bool.or_eq_false_iff] at hvp
      simp [recordUrlModel, firstFailure, emergencyTeardown, captureAcquired,
        browserAcquired, audioAcquired, displayAcquired, validationPasses,
        hvp.1, hvp.2, List.count_cons]
    case pos =>
      cases dOk
      case false =>
        simp [recordUrlModel, firstFailure, emergencyTeardown, captureAcquired,
          browserAcquired, audioAcquired, displayAcquired, validationPasses,
          ← Bool.not_or, hvp, List.count_cons]
      case true =>
        cases aOk
        case false =>
          simp [recordUrlModel, firstFailure, emergencyTeardown, captureAcquired,
            browserAcquired, audioAcquired, displayAcquired, validationPasses,
            ← Bool.not_or, hvp, List.count_cons]
        case true =>
          cases bOk
          case false =>
            simp [recordUrlModel, firstFailure, emergencyTeardown, captureAcquired,
              browserAcquired, audioAcquired, displayAcquired, validationPasses,
              ← Bool.not_or, hvp, List.count_cons]
          case true =>
            cases pOk
            case false =>
              simp [recordUrlModel, firstFailure, emergencyTeardown, captureAcquired,
                browserAcquired, audioAcquired, displayAcquired, validationPasses,
                ← Bool.not_or, hvp, List.count_cons]
            case true =>
              cases vOk
              case false =>
                simp [recordUrlModel, firstFailure, emergencyTeardown, captureAcquired,
                  browserAcquired, audioAcquired, displayAcquired, validationPasses,
                  ← Bool.not_or, hvp, List.count_cons]
              case true =>
                by_cases hdur : exceptOk (resolveDuration aD det man) = true
                case neg =>
                  simp only [Bool.not_eq_true] at hdur
                  simp [recordUrlModel, firstFailure, emergencyTeardown, captureAcquired,
                    browserAcquired, audioAcquired, displayAcquired, validationPasses,
                    ← Bool.not_or, hvp, hdur, List.count_cons]
                case pos =>
                  cases cOk
                  case false =>
                    simp [recordUrlModel, firstFailure, emergencyTeardown, captureAcquired,
                      browserAcquired, audioAcquired, displayAcquired, validationPasses,
                      ← Bool.not_or, hvp, hdur, List.count_cons]
                  case true =>
                    cases plOk
                    case false =>
                      simp [recordUrlModel, firstFailure, emergencyTeardown, captureAcquired,
                        browserAcquired, audioAcquired, displayAcquired, validationPasses,
                        ← Bool.not_or, hvp, hdur, List.count_cons]
                    case true =>
                      simp [recordUrlModel, firstFailure, emergencyTeardown, captureAcquired,
                        browserAcquired, audioAcquired, displayAcquired, validationPasses,
                        ← Bool.not_or, hvp, hdur, List.count_cons]
  }

/-- C3 witness: a browser-launch failure (display and audio already
acquired) performs exactly one display release and one audio release and no
capture-stop or browser-close step. -/
theorem C3_emergency_teardown_witness :
    (recordUrlModel
      { displayOk := true, audioOk := true, browserOk := false, pageOk := true,
        videoOk := true, autoDetect := true, detected := .nan, manual := none,
        captureOk := true, playOk := true }
      { captureStopFails := false, browserCloseFails := false,
        displayStopFails := false, audioCleanupFails := false }).trace.count
        JobEv.stopCaptureStep =
      (if captureAcquired
        { displayOk := true, audioOk := true, browserOk := false, pageOk := true,
          videoOk := true, autoDetect := true, detected := .nan, manual := none,
          captureOk := true, playOk := true } then 1 else 0) ∧
    (recordUrlModel
      { displayOk := true, audioOk := true, browserOk := false, pageOk := true,
        videoOk := true, autoDetect := true, detected := .nan, manual := none,
        captureOk := true, playOk := true }
      { captureStopFails := false, browserCloseFails := false,
        displayStopFails := false, audioCleanupFails := false }).trace.count
        JobEv.closeBrowserStep =
      (if browserAcquired
        { displayOk := true, audioOk := true, browserOk := false, pageOk := true,
          videoOk := true, autoDetect := true, detected := .nan, manual := none,
          captureOk := true, playOk := true } then 1 else 0) ∧
    (recordUrlModel
      { displayOk := true, audioOk := true, browserOk := false, pageOk := true,
        videoOk := true, autoDetect := true, detected := .nan, manual := none,
        captureOk := true, playOk := true }
      { captureStopFails := false, browserCloseFails := false,
        displayStopFails := false, audioCleanupFails := false }).trace.count
        JobEv.stopDisplayStep =
      (if displayAcquired
        { displayOk := true, audioOk := true, browserOk := false, pageOk := true,
          videoOk := true, autoDetect := true, detected := .nan, manual := none,
          captureOk := true, playOk := true } then 1 else 0) ∧
    (recordUrlModel
      { displayOk := true, audioOk := true, browserOk := false, pageOk := true,
        videoOk := true, autoDetect := true, detected := .nan, manual := none,
        captureOk := true, playOk := true }
      { captureStopFails := false, browserCloseFails := false,
        displayStopFails := false, audioCleanupFails := false }).trace.count
        JobEv.cleanupAudioStep =
      (if audioAcquired
        { displayOk := true, audioOk := true, browserOk := false, pageOk := true,
          videoOk := true, autoDetect := true, detected := .nan, manual := none,
          captureOk := true, playOk := true } then 1 else 0) :=
  (C3_emergency_teardown
    { displayOk := true, audioOk := true, browserOk := false, pageOk := true,
      videoOk := true, autoDetect := true, detected := .nan, manual := none,
      captureOk := true, playOk := true }
    { captureStopFails := false, browserCloseFails := false,
      displayStopFails := false, audioCleanupFails := false }).1 (by decide)

/-- C7: in every execution in which playback is invoked, the capture start
strictly precedes the settle delay and the settle delay strictly precedes
the playback invocation; every successful execution does invoke playback. -/
theorem C7_capture_before_play (env : JobEnv) (td : TeardownEnv) :
    ((recordUrlModel env td).trace.any (· == JobEv.playInvoked) = true →
       firstBefore (· == JobEv.captureStarted) (· == JobEv.settleDelay)
         (recordUrlModel env td).trace = true ∧
       firstBefore (· == JobEv.settleDelay) (· == JobEv.playInvoked)
         (recordUrlModel env td).trace = true)
  ∧ ((recordUrlModel env td).success = true →
       (recordUrlModel env td).trace.any (· == JobEv.playInvoked) = true) := by
  obtain ⟨dOk, aOk, bOk, pOk, vOk, aD, det, man, cOk, plOk⟩ := env
  by_cases hvp : (manualTruthy man || aD) = true
  case neg =>
    simp only [Bool.not_eq_true, Bool.or_eq_false_iff] at hvp
    simp [recordUrlModel, emergencyTeardown, firstBefore, hvp.1, hvp.2]
  case pos =>
    cases dOk
    case false =>
      simp [recordUrlModel, emergencyTeardown, firstBefore, ← Bool.not_or, hvp]
    case true =>
      cases aOk
      case false =>
        simp [recordUrlModel, emergencyTeardown, firstBefore, ← Bool.not_or, hvp]
      case true =>
        cases bOk
        case false =>
          simp [recordUrlModel, emergencyTeardown, firstBefore, ← Bool.not_or, hvp]
        case true =>
          cases pOk
          case false =>
            simp [recordUrlModel, emergencyTeardown, firstBefore, ← Bool.not_or, hvp]
          case true =>
            cases vOk
            case false =>
              simp [recordUrlModel, emergencyTeardown, firstBefore, ← Bool.not_or, hvp]
            case true =>
              by_cases hdur : exceptOk (resolveDuration aD det man) = true
              case neg =>
                simp only [Bool.not_eq_true] at hdur
                simp [recordUrlModel, emergencyTeardown, firstBefore, ← Bool.not_or,
                  hvp, hdur]
              case pos =>
                cases cOk
                case false =>
                  simp [recordUrlModel, emergencyTeardown, firstBefore, ← Bool.not_or,
                    hvp, hdur]
                case true =>
                  cases plOk
                  case false =>
                    simp [recordUrlModel, emergencyTeardown, firstBefore, ← Bool.not_or,
                      hvp, hdur]
                  case true =>
                    simp [recordUrlModel, emergencyTeardown, firstBefore, ← Bool.not_or,
                      hvp, hdur]

/-- C7 witness: a fully successful job invokes playback, and its trace has
capture start before the settle delay before the playback invocation. -/
theorem C7_capture_before_play_witness :
    firstBefore (· == JobEv.captureStarted) (· == JobEv.settleDelay)
      (recordUrlModel
        { displayOk := true, audioOk := true, browserOk := true, pageOk := true,
          videoOk := true, autoDetect := true, detected := .fin 10, manual := none,
          captureOk := true, playOk := true }
        { captureStopFails := false, browserCloseFails := false,
          displayStopFails := false, audioCleanupFails := false }).trace = true ∧
    firstBefore (· == JobEv.settleDelay) (· == JobEv.playInvoked)
      (recordUrlModel
        { displayOk := true, audioOk := true, browserOk := true, pageOk := true,
          videoOk := true, autoDetect := true, detected := .fin 10, manual := none,
          captureOk := true, playOk := true }
        { captureStopFails := false, browserCloseFails := false,
          displayStopFails := false, audioCleanupFails := false }).trace = true :=
  (C7_capture_before_play
    { displayOk := true, audioOk := true, browserOk := true, pageOk := true,
      videoOk := true, autoDetect := true, detected := .fin 10, manual := none,
      captureOk := true, playOk := true }
    { captureStopFails := false, browserCloseFails := false,
      displayStopFails := false, audioCleanupFails := false }).1 (by decide)
